import Mathlib

/-!
# Shallow embedding of the edc-umm scripts

This file embeds the three Python modules of the repository:

* `get_collections_with_opendap.py` — paginated GraphQL fetch of cloud-hosted
  collections, the OPeNDAP related-URL predicate, the filter, and the snapshot
  files;
* `manage_associations.py` — reading the filtered snapshot and the provider
  suffix filter;
* `mirror_associations.py` — mirroring service/collection associations.

HTTP traffic is modelled by an explicit stream (or record) of server responses;
the local file system is modelled as a map from file names to parsed file
contents (the `json` library's text round-trip is treated as the identity on
the structured value).  Python `dict.get` lookups on possibly-missing keys are
modelled with `Option`; a raised exception is an `Except.error` (or, for the
`NoneType` attribute errors coming from an invalid environment lookup, an outer
`Option.none`).
-/

namespace EdcUmm

/-! ### Environment configuration: `get_collections_with_opendap.py`, lines 42-58 -/

structure EnvParams where
  edl_root : String
  graphql : String
  hyrax_substring : String
deriving DecidableEq

/-- The `environment_parameters` dictionary; `Option.none` models a failed key
lookup (`dict.get` returning `None`). -/
def environment_parameters (environment : String) : Option EnvParams :=
  if environment = "prod" then
    some { edl_root := "https://urs.earthdata.nasa.gov",
           graphql := "https://graphql.earthdata.nasa.gov/api",
           hyrax_substring := "opendap.earthdata.nasa.gov" }
  else if environment = "uat" then
    some { edl_root := "https://uat.urs.earthdata.nasa.gov",
           graphql := "https://graphql.uat.earthdata.nasa.gov/api",
           hyrax_substring := "opendap.uat.earthdata.nasa.gov" }
  else if environment = "sit" then
    some { edl_root := "https://sit.urs.earthdata.nasa.gov",
           graphql := "https://graphql.sit.earthdata.nasa.gov/api",
           hyrax_substring := "opendap.sit.earthdata.nasa.gov" }
  else none

/-! ### Python's substring test `needle in haystack` -/

/-- Here `listContains haystack needle` decides whether `needle` occurs contiguously
inside `haystack` (Python's `in` operator on strings, over character lists). -/
def listContains : List Char → List Char → Bool
  | [], needle => needle.isEmpty
  | c :: tail, needle => needle.isPrefixOf (c :: tail) || listContains tail needle

/-- Python's `needle in haystack` for strings. -/
def pyIn (needle haystack : String) : Bool :=
  listContains haystack.toList needle.toList

/-- Python's `s.lower()` (the identifiers involved are ASCII). -/
def pyLower (s : String) : String :=
  ⟨s.data.map Char.toLower⟩

/-- Python's `s.endswith(suffix)`. -/
def pyEndsWith (s suffix : String) : Bool :=
  suffix.data.isSuffixOf s.data

/-! ### Data model for GraphQL collection records

A collection item, as produced by the `Collections` GraphQL query (fields
`shortName`, `version`, `conceptId`, `granules { items { relatedUrls } }`).
The `granules` value of a collection dict can be: missing, `None`, a dict
(whose `items` key may itself be missing/`None`), or — for a schema-violating
record — some non-dict value on which `.get` raises `AttributeError`
(constructor `malformed`). -/

structure RelatedUrl where
  type : Option String
  subtype : Option String
  url : Option String
deriving DecidableEq

structure Granule where
  relatedUrls : Option (List RelatedUrl)
deriving DecidableEq

inductive GranulesField where
  /-- the `granules` key is missing from the collection dict -/
  | absent : GranulesField
  /-- the `granules` key holds `None` -/
  | null : GranulesField
  /-- the `granules` key holds a dict, whose `items` key may be missing/None -/
  | obj : Option (List Granule) → GranulesField
  /-- the `granules` key holds a non-dict value: `.get('items')` raises
  `AttributeError` -/
  | malformed : GranulesField
deriving DecidableEq

structure Collection where
  shortName : String
  version : String
  conceptId : String
  granules : GranulesField
deriving DecidableEq

/-! ### `get_collection_related_urls`: `get_collections_with_opendap.py`, lines 187-206 -/

/-- Embedding of `get_collection_related_urls(collection)`.  An `AttributeError` inside the
`try` block is logged (`print(f'Failed: {collection["shortName"]}')`) and
re-raised: modelled as `Except.error` carrying the logged message.

Source mapping:
* `granules = collection.get('granules', {})` / `if granules is None` →
  the `absent` and `null` cases both proceed with `{}`;
* `granules = granules.get('items')` → `obj items` yields `items`
  (`{}` has no `items` key, hence `none`); `malformed` raises;
* `if granules == [] or granules is None: granules = [{}]` →
  the `none` and `some []` cases are replaced with `[{relatedUrls := none}]`
  (the empty dict `{}` has no `relatedUrls` key);
* `return granules[0].get('relatedUrls', [])`. -/
def get_collection_related_urls (collection : Collection) :
    Except String (List RelatedUrl) :=
  match collection.granules with
  | .malformed => .error ("Failed: " ++ collection.shortName)
  | .absent => .ok (({ relatedUrls := none } : Granule).relatedUrls.getD [])
  | .null => .ok (({ relatedUrls := none } : Granule).relatedUrls.getD [])
  | .obj none => .ok (({ relatedUrls := none } : Granule).relatedUrls.getD [])
  | .obj (some []) => .ok (({ relatedUrls := none } : Granule).relatedUrls.getD [])
  | .obj (some (g :: _)) => .ok (g.relatedUrls.getD [])

/-! ### `collection_has_opendap_url`: `get_collections_with_opendap.py`, lines 209-222 -/

/-- The per-URL condition of `collection_has_opendap_url`:
`related_url.get('type') == 'USE SERVICE API' and
 related_url.get('subtype') == 'OPENDAP DATA' and
 hyrax_substring in related_url.get('url', '')`. -/
def related_url_matches (hyrax_substring : String) (related_url : RelatedUrl) : Bool :=
  related_url.type == some "USE SERVICE API"
    && related_url.subtype == some "OPENDAP DATA"
    && pyIn hyrax_substring (related_url.url.getD "")

/-- Embedding of `collection_has_opendap_url(collection, environment)`.  The outer `none`
models the `AttributeError` from
`environment_parameters.get(environment).get('hyrax_substring')` on an invalid
environment; the inner `Except.error` is a propagated `AttributeError` from
`get_collection_related_urls`. -/
def collection_has_opendap_url (collection : Collection) (environment : String) :
    Option (Except String Bool) :=
  match environment_parameters environment with
  | none => none
  | some params =>
    match get_collection_related_urls collection with
    | .error e => some (.error e)
    | .ok related_urls =>
        some (.ok (related_urls.any (related_url_matches params.hyrax_substring)))

/-! ### `filter_for_opendap_granules`: `get_collections_with_opendap.py`, lines 225-237 -/

/-- Embedding of `filter_for_opendap_granules(collections, environment)`: the list
comprehension keeping collections whose predicate is true.  An exception
raised by the predicate on some element aborts the whole comprehension, so the
result carries the same two error channels as the predicate. -/
def filter_for_opendap_granules (collections : List Collection) (environment : String) :
    Option (Except String (List Collection)) :=
  match collections with
  | [] => some (.ok [])
  | collection :: rest =>
    match collection_has_opendap_url collection environment with
    | none => none
    | some (.error e) => some (.error e)
    | some (.ok b) =>
      match filter_for_opendap_granules rest environment with
      | none => none
      | some (.error e) => some (.error e)
      | some (.ok kept) => some (.ok (if b then collection :: kept else kept))

/-! ### `query_cmr_graph_for_collections`: `get_collections_with_opendap.py`, lines 90-184

The HTTP layer is abstracted into a stream of server responses (one per
`requests.post`), each either a 2xx response carrying the parsed
`data.collections` payload, or a non-2xx response with a status code.  The
pagination loop is written with explicit fuel so that non-termination of the
Python `while` loop is observable as the loop never reaching its exit
condition for any fuel. -/

inductive GraphResponse where
  /-- a 2xx response: `data.collections.{count, cursor, items}` -/
  | ok : Nat → String → List Collection → GraphResponse
  /-- a non-2xx response with this status code -/
  | err : Nat → GraphResponse
deriving DecidableEq

/-- The mutable state of the pagination loop: `all_collections`,
`collection_count`, `error_count`, and the `cursor` entry of
`request_json['variables']['collectionParams']` (absent on the first
request). -/
structure FetchState where
  all_collections : List Collection
  collection_count : Nat
  error_count : Nat
  cursor : Option String
deriving DecidableEq

/-- Constant `max_errors = 3` (line 148). -/
def max_errors : Nat := 3

/-- Initial state: `collection_count = 1` triggers the first request (line
141), empty accumulator (line 144), `error_count = 0` (line 147), no cursor. -/
def initialFetchState : FetchState :=
  { all_collections := [], collection_count := 1, error_count := 0, cursor := none }

/-- One loop body iteration (lines 154-182), given the response to the request
just issued: on a 2xx response update `collection_count`, extend
`all_collections` and store the returned cursor; otherwise increment
`error_count`. -/
def fetchStep (response : GraphResponse) (s : FetchState) : FetchState :=
  match response with
  | .ok count cursor items =>
      { all_collections := s.all_collections ++ items,
        collection_count := count,
        error_count := s.error_count,
        cursor := some cursor }
  | .err _ =>
      { s with error_count := s.error_count + 1 }

/-- The `while error_count < max_errors and len(all_collections) <
collection_count` loop (lines 153-182).  `server i` is the response to the
`i`-th request; the returned list of `Option String` records the cursor each
issued request carried (`none` = no cursor key).  Result `none` means the
fuel was exhausted before the loop condition failed. -/
def query_cmr_graph_loop :
    Nat → (Nat → GraphResponse) → Nat → FetchState → List (Option String) →
    Option (FetchState × List (Option String))
  | 0, _, _, _, _ => none
  | fuel + 1, server, i, s, requests =>
    if s.error_count < max_errors ∧ s.all_collections.length < s.collection_count then
      query_cmr_graph_loop fuel server (i + 1) (fetchStep (server i) s)
        (requests ++ [s.cursor])
    else
      some (s, requests)

/-- Embedding of `query_cmr_graph_for_collections(environment, edl_bearer_token)`: run the
pagination loop from the initial state and return `all_collections` together
with the request log.  (The environment and bearer token only select the URL
and headers of each request, which the response stream abstracts.) -/
def query_cmr_graph_for_collections (fuel : Nat) (server : Nat → GraphResponse) :
    Option (List Collection × List (Option String)) :=
  (query_cmr_graph_loop fuel server 0 initialFetchState []).map
    (fun out => (out.1.all_collections, out.2))

/-- The Python loop runs forever on this response stream: no amount of fuel
makes `query_cmr_graph_for_collections` reach the loop's exit condition. -/
def QueryDiverges (server : Nat → GraphResponse) : Prop :=
  ∀ fuel, query_cmr_graph_for_collections fuel server = none

/-! ### Formatted records and the snapshot store:
`get_collections_with_opendap.py`, lines 240-289, and
`manage_associations.py`, lines 66-79

The file system is a map from file names to parsed JSON contents; `json.dump`
followed by `json.load` is modelled as the identity on the structured value.
A snapshot file holds a list of formatted collection records. -/

structure FormattedCollection where
  short_name : String
  version : String
  concept_id : String
deriving DecidableEq

/-- Embedding of `get_formatted_collection(collection)` (lines 240-249). -/
def get_formatted_collection (collection : Collection) : FormattedCollection :=
  { short_name := collection.shortName,
    version := collection.version,
    concept_id := collection.conceptId }

/-- The local directory: file name ↦ parsed contents, `none` = no such file
(`FileNotFoundError` on read). -/
def FileSystem : Type := String → Option (List FormattedCollection)

/-- Embedding of `save_opendap_collections(opendap_collections, environment)` (lines
273-289): full overwrite of `opendap_collections_<environment>.json` with the
formatted projection of the input. -/
def save_opendap_collections (opendap_collections : List Collection)
    (environment : String) (fs : FileSystem) : FileSystem :=
  fun name =>
    if name = "opendap_collections_" ++ environment ++ ".json" then
      some (opendap_collections.map get_formatted_collection)
    else fs name

/-- Embedding of `read_all_collections(environment)` (`manage_associations.py`, lines
66-79): parse `opendap_collections_<environment>.json`; a missing file is a
raised `FileNotFoundError`, modelled as `none`. -/
def read_all_collections (environment : String) (fs : FileSystem) :
    Option (List FormattedCollection) :=
  fs ("opendap_collections_" ++ environment ++ ".json")

/-! ### Provider filters: `manage_associations.py`, lines 82-98, and
`mirror_associations.py`, lines 68-98 -/

/-- The list comprehension of `get_associated_collections`
(`mirror_associations.py`, lines 91-96): keep the concept IDs whose
lowercased identifier ends with the lowercased provider. -/
def filter_by_provider (collection_provider : String) (collections : List String) :
    List String :=
  collections.filter
    (fun collection => pyEndsWith (pyLower collection) (pyLower collection_provider))

/-- Embedding of `get_provider_collections(collection_provider, environment)`
(`manage_associations.py`, lines 82-98): read the snapshot, then keep the
`concept_id` of each record whose lowercased `concept_id` ends with the
lowercased provider.  A missing snapshot file propagates as `none`.  (The
snapshot schema guarantees the `concept_id` key, so `collection.get(
'concept_id', '')` and `collection['concept_id']` are both the record
field.) -/
def get_provider_collections (collection_provider : String) (environment : String)
    (fs : FileSystem) : Option (List String) :=
  match read_all_collections environment fs with
  | none => none
  | some all_collections =>
      some ((all_collections.filter
        (fun collection =>
          pyEndsWith (pyLower collection.concept_id) (pyLower collection_provider))).map
        (fun collection => collection.concept_id))

/-! ### `mirror_associations.py`: CMR association requests as a trace

Each CMR call of `mirror_service_associations` is recorded as an action in a
trace, in the order the requests are issued.  The `CmrWorld` record fixes the
server's behaviour: whether the service search succeeds (2xx), whether its
`items` list is non-empty, the `meta.associations.collections` list of the
found record, and whether the create/remove requests return 2xx
(`raise_for_status` raises otherwise). -/

inductive CmrAction where
  /-- the request `GET {base}/search/services.umm_json?concept_id={id}` -/
  | search : String → CmrAction
  /-- the request `POST {base}/search/services/{service}/associations` with these
  collection concept IDs -/
  | create : String → List String → CmrAction
  /-- the request `DELETE {base}/search/services/{service}/associations` with these
  collection concept IDs -/
  | remove : String → List String → CmrAction
deriving DecidableEq

structure CmrWorld where
  search_ok : Bool
  service_found : Bool
  associated_collections : List String
  create_ok : Bool
  remove_ok : Bool
deriving DecidableEq

/-- The `CMR_URLS` table (`mirror_associations.py`, lines 50-51). -/
def CMR_URLS (environment : String) : Option String :=
  if environment = "uat" then some "https://cmr.uat.earthdata.nasa.gov"
  else if environment = "prod" then some "https://cmr.earthdata.nasa.gov"
  else none

/-- The `OPENDAP_CONCEPT_IDS` table (`mirror_associations.py`, lines 52-53). -/
def OPENDAP_CONCEPT_IDS (environment : String) : Option String :=
  if environment = "uat" then some "S1262134530-EEDTEST"
  else if environment = "prod" then some "S2874702816-XYZ_PROV"
  else none

/-- Embedding of `mirror_service_associations(service_with_associations,
collection_provider, environment, remove_old_associations)`
(`mirror_associations.py`, lines 144-181), returning the trace of CMR
requests actually issued (in order) and the outcome (`Except.error` = a
raised exception).

Source mapping:
* invalid environment → raise before any request (lines 161-165);
* `get_associated_collections` issues the search request; a non-2xx response
  or an empty `items` list raises (lines 80-89); otherwise it returns the
  provider-filtered association list (lines 91-98);
* `create_associations` issues the create request against the enterprise
  OPeNDAP record; non-2xx raises via `raise_for_status` (lines 114-118);
* only if `remove_old_associations` is true, `remove_associations` issues the
  delete request against the source record (lines 177-181). -/
def mirror_service_associations (world : CmrWorld)
    (service_with_associations collection_provider environment : String)
    (remove_old_associations : Bool) : List CmrAction × Except String Unit :=
  match CMR_URLS environment, OPENDAP_CONCEPT_IDS environment with
  | some _, some opendap_concept_id =>
    let searchTrace := [CmrAction.search service_with_associations]
    if !world.search_ok then
      (searchTrace, .error "HTTPError: services search")
    else if !world.service_found then
      (searchTrace, .error ("Could not find service record: " ++
        service_with_associations))
    else
      let associated_collections :=
        filter_by_provider collection_provider world.associated_collections
      let createTrace :=
        searchTrace ++ [CmrAction.create opendap_concept_id associated_collections]
      if !world.create_ok then
        (createTrace, .error "HTTPError: create associations")
      else if remove_old_associations then
        let removeTrace := createTrace ++
          [CmrAction.remove service_with_associations associated_collections]
        if !world.remove_ok then
          (removeTrace, .error "HTTPError: remove associations")
        else
          (removeTrace, .ok ())
      else
        (createTrace, .ok ())
  | _, _ => ([], .error ("Invalid environment: " ++ environment))

/-! ## Helper lemmas -/

/-- Correctness of the Python substring test at the list level: `listContains`
decides contiguous-sublist occurrence. -/
theorem listContains_iff_infix (haystack needle : List Char) :
    listContains haystack needle = true ↔ needle <:+: haystack := by
  induction haystack with
  | nil => simp [listContains, List.isEmpty_iff, List.infix_nil]
  | cons c tail ih =>
      simp [listContains, List.isPrefixOf_iff_prefix, ih, List.infix_cons_iff]

/-- Correctness of the Python substring test at the string level. -/
theorem pyIn_iff_infix (needle haystack : String) :
    pyIn needle haystack = true ↔ needle.toList <:+: haystack.toList :=
  listContains_iff_infix haystack.toList needle.toList

/-- Correctness of the Python suffix test. -/
theorem pyEndsWith_iff_suffix (s suffix : String) :
    pyEndsWith s suffix = true ↔ suffix.data <:+ s.data := by
  simp [pyEndsWith, List.isSuffixOf_iff_suffix]

/-! ## Claims about the OPeNDAP related-URL predicate -/

/-- C2: for a collection whose first granule carries a list of related URLs
and a valid environment, `collection_has_opendap_url` raises nothing and
returns `true` iff some related URL of the first granule has type
`USE SERVICE API`, subtype `OPENDAP DATA`, and a URL containing the
environment's Hyrax host substring; in particular, on a single-URL collection
the result is `true` exactly when all three conditions hold, so falsifying any
one of them flips the result to `false`. -/
theorem has_opendap_url_iff (collection : Collection) (environment : String)
    (params : EnvParams) (g : Granule) (rest : List Granule)
    (urls : List RelatedUrl)
    (henv : environment_parameters environment = some params)
    (hg : collection.granules = .obj (some (g :: rest)))
    (hu : g.relatedUrls = some urls) :
    ∃ b, collection_has_opendap_url collection environment = some (.ok b) ∧
      (b = true ↔ ∃ u ∈ urls, u.type = some "USE SERVICE API" ∧
        u.subtype = some "OPENDAP DATA" ∧
        params.hyrax_substring.toList <:+: (u.url.getD "").toList) := by
  refine ⟨urls.any (related_url_matches params.hyrax_substring), ?_, ?_⟩
  · simp [collection_has_opendap_url, get_collection_related_urls, henv, hg, hu]
  · simp only [List.any_eq_true, related_url_matches, Bool.and_eq_true,
      beq_iff_eq, pyIn_iff_infix]
    tauto

def exampleUrl : RelatedUrl :=
  { type := some "USE SERVICE API",
    subtype := some "OPENDAP DATA",
    url := some "https://opendap.earthdata.nasa.gov/collections/X" }

def exampleGranule : Granule := { relatedUrls := some [exampleUrl] }

def exampleCollection : Collection :=
  { shortName := "EX", version := "1", conceptId := "C100-POCLOUD",
    granules := .obj (some [exampleGranule]) }

def prodEnvParams : EnvParams :=
  { edl_root := "https://urs.earthdata.nasa.gov",
    graphql := "https://graphql.earthdata.nasa.gov/api",
    hyrax_substring := "opendap.earthdata.nasa.gov" }

/-- Witness for C2 at a concrete single-URL collection in `prod`. -/
theorem has_opendap_url_iff_witness :
    ∃ b, collection_has_opendap_url exampleCollection "prod" = some (.ok b) ∧
      (b = true ↔ ∃ u ∈ [exampleUrl], u.type = some "USE SERVICE API" ∧
        u.subtype = some "OPENDAP DATA" ∧
        prodEnvParams.hyrax_substring.toList <:+: (u.url.getD "").toList) :=
  has_opendap_url_iff exampleCollection "prod" prodEnvParams exampleGranule []
    [exampleUrl] rfl rfl rfl

/-- The shapes C4 is about: missing `granules` key, `granules` holding `None`,
a granules dict without usable `items`, an empty granule list, or a first
granule without a `relatedUrls` key. -/
def NoRelatedUrlsShape (collection : Collection) : Prop :=
  collection.granules = .absent ∨ collection.granules = .null ∨
    collection.granules = .obj none ∨ collection.granules = .obj (some []) ∨
    ∃ g rest, collection.granules = .obj (some (g :: rest)) ∧ g.relatedUrls = none

/-- C4: for a collection with no granules, null granules, an empty granule
list, or a first granule lacking `relatedUrls`, `get_collection_related_urls`
returns the empty list without raising, and `collection_has_opendap_url`
returns `false` without raising, for every valid environment. -/
theorem no_related_urls_gives_false (collection : Collection)
    (environment : String) (params : EnvParams)
    (henv : environment_parameters environment = some params)
    (hshape : NoRelatedUrlsShape collection) :
    get_collection_related_urls collection = .ok [] ∧
      collection_has_opendap_url collection environment = some (.ok false) := by
  have hurls : get_collection_related_urls collection = .ok [] := by
    rcases hshape with h | h | h | h | ⟨g, rest, h, hrel⟩
    · simp [get_collection_related_urls, h]
    · simp [get_collection_related_urls, h]
    · simp [get_collection_related_urls, h]
    · simp [get_collection_related_urls, h]
    · simp [get_collection_related_urls, h, hrel]
  exact ⟨hurls, by simp [collection_has_opendap_url, henv, hurls]⟩

def granulelessCollection : Collection :=
  { shortName := "EMPTY", version := "1", conceptId := "C101-POCLOUD",
    granules := .absent }

/-- Witness for C4 at a collection with no `granules` key, in `prod`. -/
theorem no_related_urls_gives_false_witness :
    get_collection_related_urls granulelessCollection = .ok [] ∧
      collection_has_opendap_url granulelessCollection "prod"
        = some (.ok false) :=
  no_related_urls_gives_false granulelessCollection "prod" prodEnvParams rfl
    (Or.inl rfl)

/-- C7: when inspecting the granules raises an `AttributeError` (the
`granules` key holds a non-dict value), `get_collection_related_urls` logs the
collection's `shortName` and re-raises instead of substituting a default, and
`collection_has_opendap_url` propagates that error. -/
theorem malformed_granules_propagates (collection : Collection)
    (environment : String) (params : EnvParams)
    (henv : environment_parameters environment = some params)
    (hmal : collection.granules = .malformed) :
    get_collection_related_urls collection
        = .error ("Failed: " ++ collection.shortName) ∧
      collection_has_opendap_url collection environment
        = some (.error ("Failed: " ++ collection.shortName)) := by
  have hurls : get_collection_related_urls collection
      = .error ("Failed: " ++ collection.shortName) := by
    simp [get_collection_related_urls, hmal]
  exact ⟨hurls, by simp [collection_has_opendap_url, henv, hurls]⟩

def malformedCollection : Collection :=
  { shortName := "BROKEN", version := "1", conceptId := "C102-POCLOUD",
    granules := .malformed }

/-- Witness for C7 at a collection whose `granules` value is not a dict. -/
theorem malformed_granules_propagates_witness :
    get_collection_related_urls malformedCollection
        = .error ("Failed: " ++ malformedCollection.shortName) ∧
      collection_has_opendap_url malformedCollection "prod"
        = some (.error ("Failed: " ++ malformedCollection.shortName)) :=
  malformed_granules_propagates malformedCollection "prod" prodEnvParams rfl rfl

/-! ## Claims about the filter and the snapshot store -/

/-- When the filter comprehension completes without raising, its result is a
sublist (subsequence) of the input. -/
theorem filter_for_opendap_granules_sublist (collections : List Collection)
    (environment : String) (kept : List Collection)
    (h : filter_for_opendap_granules collections environment = some (.ok kept)) :
    kept.Sublist collections := by
  induction collections generalizing kept with
  | nil =>
      simp only [filter_for_opendap_granules, Option.some.injEq,
        Except.ok.injEq] at h
      simp [← h]
  | cons collection rest ih =>
      simp only [filter_for_opendap_granules] at h
      rcases hc : collection_has_opendap_url collection environment with _ | e
      · rw [hc] at h; exact absurd h (by simp)
      · rw [hc] at h
        rcases e with e | b
        · exact absurd h (by simp)
        · rcases hrest : filter_for_opendap_granules rest environment with _ | r
          · rw [hrest] at h; exact absurd h (by simp)
          · rw [hrest] at h
            rcases r with e | keptRest
            · exact absurd h (by simp)
            · simp only [Option.some.injEq, Except.ok.injEq] at h
              rcases b with _ | _
              · simp only [if_neg Bool.false_ne_true] at h
                exact (h ▸ ih keptRest hrest).cons collection
              · simp only [if_pos rfl] at h
                exact h ▸ (ih keptRest hrest).cons₂ collection

/-- C5: whenever `filter_for_opendap_granules` returns a list (raising no
error), that list is a subsequence of the input: its length is at most the
input's length, every element of it belongs to the input, and relative order
is preserved.  (The embedding is pure, so the input list itself is never
mutated.) -/
theorem filter_is_subset (collections : List Collection) (environment : String)
    (kept : List Collection)
    (h : filter_for_opendap_granules collections environment = some (.ok kept)) :
    kept.Sublist collections ∧ kept.length ≤ collections.length ∧
      ∀ collection ∈ kept, collection ∈ collections := by
  have hsub := filter_for_opendap_granules_sublist collections environment kept h
  exact ⟨hsub, hsub.length_le, fun c hc => hsub.mem hc⟩

/-- Witness for C5: a two-element input in `prod`, of which only the first
passes the predicate. -/
theorem filter_is_subset_witness :
    [exampleCollection].Sublist [exampleCollection, granulelessCollection] ∧
      [exampleCollection].length ≤ [exampleCollection, granulelessCollection].length ∧
      ∀ collection ∈ [exampleCollection],
        collection ∈ [exampleCollection, granulelessCollection] :=
  filter_is_subset [exampleCollection, granulelessCollection] "prod"
    [exampleCollection] rfl

/-- C8: writing the filtered snapshot with `save_opendap_collections` and
reading the same environment's file back with `read_all_collections` yields
exactly the formatted records, in order: the `i`-th record read back is the
`{short_name, version, concept_id}` projection of the `i`-th input
collection. -/
theorem snapshot_round_trip (opendap_collections : List Collection)
    (environment : String) (fs : FileSystem) :
    read_all_collections environment
        (save_opendap_collections opendap_collections environment fs)
      = some (opendap_collections.map get_formatted_collection) ∧
      (opendap_collections.map get_formatted_collection).length
        = opendap_collections.length ∧
      ∀ i : Nat, (opendap_collections.map get_formatted_collection)[i]?
        = (opendap_collections[i]?).map (fun (c : Collection) =>
            ({ short_name := c.shortName, version := c.version,
               concept_id := c.conceptId } : FormattedCollection)) := by
  refine ⟨?_, by simp, ?_⟩
  · simp [read_all_collections, save_opendap_collections]
  · intro i
    simp only [List.getElem?_map]
    rfl

/-- C9: reading the snapshot and filtering by provider keeps exactly those
concept IDs whose lowercased identifier ends with the lowercased provider,
preserving input order (the result is a subsequence of the projected concept
IDs), and agrees with the companion filter of `get_associated_collections`
applied to the projected concept IDs. -/
theorem provider_filter_exact (collection_provider environment : String)
    (fs : FileSystem) (records : List FormattedCollection)
    (hread : read_all_collections environment fs = some records) :
    ∃ ids, get_provider_collections collection_provider environment fs
        = some ids ∧
      ids.Sublist (records.map (fun r => r.concept_id)) ∧
      (∀ s, s ∈ ids ↔ ∃ r ∈ records, r.concept_id = s ∧
        (pyLower collection_provider).data <:+ (pyLower s).data) ∧
      filter_by_provider collection_provider
        (records.map (fun r => r.concept_id)) = ids := by
  refine ⟨(records.filter (fun r =>
      pyEndsWith (pyLower r.concept_id) (pyLower collection_provider))).map
        (fun r => r.concept_id), ?_, ?_, ?_, ?_⟩
  · simp [get_provider_collections, hread]
  · exact (records.filter_sublist).map (fun r => r.concept_id)
  · intro s
    simp only [List.mem_map, List.mem_filter]
    constructor
    · rintro ⟨r, ⟨hr, hend⟩, rfl⟩
      exact ⟨r, hr, rfl, (pyEndsWith_iff_suffix _ _).mp hend⟩
    · rintro ⟨r, hr, rfl, hend⟩
      exact ⟨r, ⟨hr, (pyEndsWith_iff_suffix _ _).mpr hend⟩, rfl⟩
  · rw [filter_by_provider, List.filter_map]
    rfl

def exampleSnapshot : List FormattedCollection :=
  [{ short_name := "A", version := "1", concept_id := "C1-POCLOUD" },
   { short_name := "B", version := "1", concept_id := "C2-OTHER" },
   { short_name := "C", version := "1", concept_id := "C3-POCLOUD" }]

def exampleFileSystem : FileSystem :=
  fun name =>
    if name = "opendap_collections_prod.json" then some exampleSnapshot
    else none

/-- Witness for C9: the snapshot holding concept IDs
`C1-POCLOUD, C2-OTHER, C3-POCLOUD` filtered by provider `POCLOUD` yields
exactly `C1-POCLOUD, C3-POCLOUD`. -/
theorem provider_filter_exact_witness :
    (∃ ids, get_provider_collections "POCLOUD" "prod" exampleFileSystem
        = some ids ∧
      ids.Sublist (exampleSnapshot.map (fun r => r.concept_id)) ∧
      (∀ s, s ∈ ids ↔ ∃ r ∈ exampleSnapshot, r.concept_id = s ∧
        (pyLower "POCLOUD").data <:+ (pyLower s).data) ∧
      filter_by_provider "POCLOUD"
        (exampleSnapshot.map (fun r => r.concept_id)) = ids) ∧
    get_provider_collections "POCLOUD" "prod" exampleFileSystem
      = some ["C1-POCLOUD", "C3-POCLOUD"] :=
  ⟨provider_filter_exact "POCLOUD" "prod" exampleFileSystem exampleSnapshot rfl,
   by decide⟩

/-! ## Claims about the pagination loop -/

/-- C1: for every response sequence whose first three responses are 2xx with
server-reported `count = 250` and pages of 100, 100 and 50 items, the fetch
returns exactly the 250 accumulated items and issues exactly 3 requests: the
first carries no cursor and each subsequent request carries the cursor
returned by the prior response. -/
theorem pagination_three_pages (server : Nat → GraphResponse)
    (cursor1 cursor2 cursor3 : String) (page1 page2 page3 : List Collection)
    (h0 : server 0 = .ok 250 cursor1 page1)
    (h1 : server 1 = .ok 250 cursor2 page2)
    (h2 : server 2 = .ok 250 cursor3 page3)
    (hp1 : page1.length = 100) (hp2 : page2.length = 100)
    (hp3 : page3.length = 50) :
    query_cmr_graph_for_collections 4 server
      = some (page1 ++ page2 ++ page3, [none, some cursor1, some cursor2]) ∧
    (page1 ++ page2 ++ page3).length = 250 := by
  constructor
  · rw [query_cmr_graph_for_collections,
      show (4 : Nat) = 0 + 1 + 1 + 1 + 1 from rfl]
    rw [query_cmr_graph_loop]
    rw [if_pos (by simp [initialFetchState, max_errors])]
    rw [query_cmr_graph_loop]
    rw [if_pos (by simp [initialFetchState, max_errors, fetchStep, h0, hp1])]
    rw [query_cmr_graph_loop]
    rw [if_pos (by
      simp [initialFetchState, max_errors, fetchStep, h0, h1, hp1, hp2])]
    rw [query_cmr_graph_loop]
    rw [if_neg (by
      simp [initialFetchState, max_errors, fetchStep, h0, h1, h2, hp1, hp2,
        hp3])]
    simp [initialFetchState, fetchStep, h0, h1, h2]
  · simp [hp1, hp2, hp3]

def pageServer : Nat → GraphResponse := fun i =>
  if i = 0 then .ok 250 "cursor-a" (List.replicate 100 granulelessCollection)
  else if i = 1 then
    .ok 250 "cursor-b" (List.replicate 100 granulelessCollection)
  else if i = 2 then
    .ok 250 "cursor-c" (List.replicate 50 granulelessCollection)
  else .err 500

/-- Witness for C1 at a concrete three-page server. -/
theorem pagination_three_pages_witness :
    query_cmr_graph_for_collections 4 pageServer
      = some (List.replicate 100 granulelessCollection
          ++ List.replicate 100 granulelessCollection
          ++ List.replicate 50 granulelessCollection,
          [none, some "cursor-a", some "cursor-b"]) ∧
    (List.replicate 100 granulelessCollection
      ++ List.replicate 100 granulelessCollection
      ++ List.replicate 50 granulelessCollection).length = 250 :=
  pagination_three_pages pageServer "cursor-a" "cursor-b" "cursor-c" _ _ _
    rfl rfl rfl (by simp) (by simp) (by simp)

/-- C3: when every response is non-2xx, the fetch makes exactly 3 request
attempts (all without a cursor), raises nothing, and returns the empty list;
and in general, from any loop state with one error left in the budget, a
further non-2xx response makes the loop stop and return whatever has been
accumulated so far. -/
theorem pagination_error_budget (server : Nat → GraphResponse)
    (herr : ∀ i, i < 3 → ∃ status, server i = .err status) :
    (query_cmr_graph_for_collections 4 server
      = some ([], [none, none, none])) ∧
    ∀ (server2 : Nat → GraphResponse) (i status : Nat) (s : FetchState)
      (requests : List (Option String)) (fuel : Nat),
      server2 i = .err status → s.error_count = max_errors - 1 →
      s.all_collections.length < s.collection_count →
      query_cmr_graph_loop (fuel + 1 + 1) server2 i s requests
        = some ({ s with error_count := max_errors },
            requests ++ [s.cursor]) := by
  constructor
  · obtain ⟨status0, h0⟩ := herr 0 (by omega)
    obtain ⟨status1, h1⟩ := herr 1 (by omega)
    obtain ⟨status2, h2⟩ := herr 2 (by omega)
    rw [query_cmr_graph_for_collections,
      show (4 : Nat) = 0 + 1 + 1 + 1 + 1 from rfl]
    rw [query_cmr_graph_loop]
    rw [if_pos (by simp [initialFetchState, max_errors])]
    rw [query_cmr_graph_loop]
    rw [if_pos (by simp [initialFetchState, max_errors, fetchStep, h0])]
    rw [query_cmr_graph_loop]
    rw [if_pos (by simp [initialFetchState, max_errors, fetchStep, h0, h1])]
    rw [query_cmr_graph_loop]
    rw [if_neg (by
      simp [initialFetchState, max_errors, fetchStep, h0, h1, h2])]
    simp [initialFetchState, fetchStep, h0, h1, h2]
  · intro server2 i status s requests fuel hsrv herrcount hlen
    have herr2 : s.error_count = 2 := by simpa [max_errors] using herrcount
    rw [query_cmr_graph_loop]
    rw [if_pos ⟨show s.error_count < 3 by omega, hlen⟩]
    rw [query_cmr_graph_loop]
    rw [if_neg (by simp [fetchStep, hsrv, herr2, max_errors])]
    simp [fetchStep, hsrv, herr2, max_errors]

def failingServer : Nat → GraphResponse := fun _ => .err 500

/-- Witness for C3 at a server answering 500 to every request. -/
theorem pagination_error_budget_witness :
    query_cmr_graph_for_collections 4 failingServer
      = some ([], [none, none, none]) :=
  (pagination_error_budget failingServer (fun _ _ => ⟨500, rfl⟩)).1

/-- A server that always answers 2xx with `count = 1` and an empty `items`
page: the accumulator never grows and `error_count` never increments. -/
def stallingServer : Nat → GraphResponse := fun _ => .ok 1 "cursor" []

/-- Counterexample to C6 as stated: against `stallingServer` the pagination
loop never reaches its exit condition — the error budget only counts non-2xx
responses, so an endless stream of successful-but-empty pages loops
forever. -/
theorem pagination_can_stall : QueryDiverges stallingServer := by
  intro fuel
  rw [query_cmr_graph_for_collections]
  suffices h : ∀ fuel i cursor requests,
      query_cmr_graph_loop fuel stallingServer i
        { all_collections := [], collection_count := 1, error_count := 0,
          cursor := cursor } requests = none by
    rw [show initialFetchState
        = { all_collections := [], collection_count := 1, error_count := 0,
            cursor := none } from rfl, h fuel 0 none []]
    rfl
  intro fuel
  induction fuel with
  | zero => intro i cursor requests; rfl
  | succ n ih =>
      intro i cursor requests
      rw [query_cmr_graph_loop]
      rw [if_pos (by simp [max_errors])]
      exact ih (i + 1) (some "cursor") (requests ++ [cursor])

/-- Whenever the pagination loop stops on its own (returns `some`), the final
state has the error budget exhausted or the accumulator at least as long as
the reported total. -/
theorem query_cmr_graph_loop_exit (server : Nat → GraphResponse)
    (fuel i : Nat) (s : FetchState) (requests : List (Option String))
    (s2 : FetchState) (requests2 : List (Option String))
    (h : query_cmr_graph_loop fuel server i s requests
      = some (s2, requests2)) :
    max_errors ≤ s2.error_count ∨
      s2.collection_count ≤ s2.all_collections.length := by
  induction fuel generalizing i s requests with
  | zero => exact absurd h (by simp [query_cmr_graph_loop])
  | succ n ih =>
      rw [query_cmr_graph_loop] at h
      by_cases hcond : s.error_count < max_errors ∧
          s.all_collections.length < s.collection_count
      · rw [if_pos hcond] at h
        exact ih _ _ _ h
      · rw [if_neg hcond] at h
        simp only [Option.some.injEq, Prod.mk.injEq] at h
        obtain ⟨rfl, rfl⟩ := h
        omega

/-- Fuel bound for the pagination loop: when every 2xx response carries at
least one item and reports a total of at most `C`, the loop finishes within
`(C - |accumulated|) + (3 - errors)` further iterations. -/
theorem query_cmr_graph_loop_total (C : Nat) (server : Nat → GraphResponse)
    (hok : ∀ i count cursor items, server i = .ok count cursor items →
      items ≠ [] ∧ count ≤ C) :
    ∀ (fuel i : Nat) (s : FetchState) (requests : List (Option String)),
      s.collection_count ≤ C →
      (C - s.all_collections.length) + (max_errors - s.error_count) < fuel →
      ∃ out, query_cmr_graph_loop fuel server i s requests = some out := by
  intro fuel
  induction fuel with
  | zero => intro i s requests _ hm; omega
  | succ n ih =>
      intro i s requests hcount hm
      rw [query_cmr_graph_loop]
      by_cases hcond : s.error_count < max_errors ∧
          s.all_collections.length < s.collection_count
      · rw [if_pos hcond]
        rcases hsrv : server i with ⟨count, cursor, items⟩ | status
        · obtain ⟨hne, hle⟩ := hok i count cursor items hsrv
          have hlen : 1 ≤ items.length := List.length_pos.mpr hne
          apply ih
          · simp [fetchStep, hsrv, hle]
          · simp only [fetchStep, hsrv, List.length_append]
            omega
        · apply ih
          · simp [fetchStep, hsrv, hcount]
          · simp only [fetchStep, hsrv]
            omega
      · rw [if_neg hcond]
        exact ⟨_, rfl⟩

/-- C6 (amended): as stated the claim is false — `pagination_can_stall`
exhibits an adversarial stream of successful responses on which the loop runs
forever, since only non-2xx responses consume the error budget.  It holds
under the natural server assumption: if every successful response carries at
least one item and reports a total of at most `C` (with `C ≥ 1`), the loop
terminates within `C + 3` iterations, and on exit the error budget is
exhausted or the accumulated length has reached the reported total. -/
theorem pagination_terminates_of_bounded_count (C : Nat)
    (server : Nat → GraphResponse) (hC : 1 ≤ C)
    (hok : ∀ i count cursor items, server i = .ok count cursor items →
      items ≠ [] ∧ count ≤ C) :
    ∃ s requests,
      query_cmr_graph_loop (C + 4) server 0 initialFetchState []
        = some (s, requests) ∧
      (max_errors ≤ s.error_count ∨
        s.collection_count ≤ s.all_collections.length) ∧
      query_cmr_graph_for_collections (C + 4) server
        = some (s.all_collections, requests) := by
  obtain ⟨out, hout⟩ := query_cmr_graph_loop_total C server hok (C + 4) 0
    initialFetchState [] (by simpa [initialFetchState] using hC)
    (by simp [initialFetchState, max_errors])
  obtain ⟨s, requests⟩ := out
  exact ⟨s, requests, hout,
    query_cmr_graph_loop_exit server _ _ _ _ _ _ hout,
    by rw [query_cmr_graph_for_collections, hout]; rfl⟩

def productiveServer : Nat → GraphResponse :=
  fun _ => .ok 1 "cursor" [granulelessCollection]

/-- Witness for the amended C6 at a server reporting one collection and
returning it on the first page. -/
theorem pagination_terminates_witness :
    ∃ s requests,
      query_cmr_graph_loop (1 + 4) productiveServer 0 initialFetchState []
        = some (s, requests) ∧
      (max_errors ≤ s.error_count ∨
        s.collection_count ≤ s.all_collections.length) ∧
      query_cmr_graph_for_collections (1 + 4) productiveServer
        = some (s.all_collections, requests) :=
  pagination_terminates_of_bounded_count 1 productiveServer (by omega)
    (by intro i count cursor items h
        simp only [productiveServer] at h
        cases h
        exact ⟨by simp, by omega⟩)

/-! ## Claim about the association mirroring flow -/

/-- C10: in `mirror_service_associations` the remove request against the
source service record is never issued unless the create request against the
target record has already completed successfully: when the flag is false no
remove is issued; when the create request fails no remove is issued and the
operation aborts with an error; and any issued remove occurs in a trace where
it strictly follows a successful create against the environment's enterprise
OPeNDAP record, with the same collection list. -/
theorem mirror_remove_only_after_create (world : CmrWorld)
    (service_with_associations collection_provider environment : String)
    (remove_old_associations : Bool) :
    (remove_old_associations = false →
      ∀ s ids, CmrAction.remove s ids ∉
        (mirror_service_associations world service_with_associations
          collection_provider environment remove_old_associations).1) ∧
    (world.create_ok = false →
      (∀ s ids, CmrAction.remove s ids ∉
        (mirror_service_associations world service_with_associations
          collection_provider environment remove_old_associations).1) ∧
      ∃ e, (mirror_service_associations world service_with_associations
          collection_provider environment remove_old_associations).2
            = .error e) ∧
    (∀ s ids, CmrAction.remove s ids ∈
        (mirror_service_associations world service_with_associations
          collection_provider environment remove_old_associations).1 →
      world.search_ok = true ∧ world.service_found = true ∧
        world.create_ok = true ∧ remove_old_associations = true ∧
        s = service_with_associations ∧
        ids = filter_by_provider collection_provider
          world.associated_collections ∧
        ∃ opendap_concept_id,
          OPENDAP_CONCEPT_IDS environment = some opendap_concept_id ∧
          (mirror_service_associations world service_with_associations
            collection_provider environment remove_old_associations).1
            = [CmrAction.search service_with_associations,
               CmrAction.create opendap_concept_id ids,
               CmrAction.remove service_with_associations ids]) := by
  obtain ⟨sok, sfound, assoc, cok, rok⟩ := world
  rcases hurl : CMR_URLS environment with _ | url <;>
    rcases hop : OPENDAP_CONCEPT_IDS environment with _ | oid <;>
      cases sok <;> cases sfound <;> cases cok <;> cases rok <;>
        cases remove_old_associations <;>
          simp_all [mirror_service_associations]

def exampleWorld : CmrWorld :=
  { search_ok := true, service_found := true,
    associated_collections := ["C1-POCLOUD", "C2-OTHER", "C3-POCLOUD"],
    create_ok := true, remove_ok := true }

/-- Witness for C10: in an all-success run for `prod` with removal enabled,
the issued remove request appears only at the end of the trace, after the
successful create against the enterprise record. -/
theorem mirror_remove_only_after_create_witness :
    exampleWorld.search_ok = true ∧ exampleWorld.service_found = true ∧
      exampleWorld.create_ok = true ∧ true = true ∧
      "S2009180097-POCLOUD" = "S2009180097-POCLOUD" ∧
      ["C1-POCLOUD", "C3-POCLOUD"] = filter_by_provider "POCLOUD"
        exampleWorld.associated_collections ∧
      ∃ opendap_concept_id,
        OPENDAP_CONCEPT_IDS "prod" = some opendap_concept_id ∧
        (mirror_service_associations exampleWorld "S2009180097-POCLOUD"
          "POCLOUD" "prod" true).1
          = [CmrAction.search "S2009180097-POCLOUD",
             CmrAction.create opendap_concept_id
               ["C1-POCLOUD", "C3-POCLOUD"],
             CmrAction.remove "S2009180097-POCLOUD"
               ["C1-POCLOUD", "C3-POCLOUD"]] :=
  (mirror_remove_only_after_create exampleWorld "S2009180097-POCLOUD"
    "POCLOUD" "prod" true).2.2 "S2009180097-POCLOUD"
    ["C1-POCLOUD", "C3-POCLOUD"] (by decide)

end EdcUmm
